import Mathlib

/-!
Verification development for the USB Insight Hub display agent
(`hub_agent.py`).  The Python source is shallowly embedded: pure helpers
become Lean functions over `List Char` / `List Nat`; the agent's mutable
per-channel dictionaries become an explicit `AgentState` record threaded
through the scan/refresh functions; serial I/O outcomes are modelled as
explicit inductive "world" values supplied as inputs.
-/

/-- The three fixed hub channels, `CHANNELS = ["CH1", "CH2", "CH3"]`. -/
inductive Channel where
  | CH1
  | CH2
  | CH3
deriving DecidableEq

/-- The scan iterates over the channels in this fixed order. -/
def CHANNELS : List Channel := [Channel.CH1, Channel.CH2, Channel.CH3]

/-- A per-channel dictionary (the agent keeps `_channel_display`,
`_channel_serials`, `_channel_states` keyed by channel; a missing key is
`none`). -/
structure ChanMap (α : Type) where
  c1 : Option α
  c2 : Option α
  c3 : Option α
deriving DecidableEq

/-- The empty per-channel dictionary. -/
def ChanMap.empty {α : Type} : ChanMap α := ⟨none, none, none⟩

/-- Dictionary lookup `m.get(ch)` (returns `none` when absent). -/
def ChanMap.get {α : Type} (m : ChanMap α) : Channel → Option α
  | Channel.CH1 => m.c1
  | Channel.CH2 => m.c2
  | Channel.CH3 => m.c3

/-- Dictionary assignment `m[ch] = a`. -/
def ChanMap.set {α : Type} (m : ChanMap α) (ch : Channel) (a : α) : ChanMap α :=
  match ch with
  | Channel.CH1 => { m with c1 := some a }
  | Channel.CH2 => { m with c2 := some a }
  | Channel.CH3 => { m with c3 := some a }

/-- Python truthiness of an optional string (`not x` is true for both
`None` and the empty string). -/
def truthyS (o : Option String) : Bool :=
  match o with
  | none => false
  | some s => decide (s ≠ "")

/-- Python whitespace stripped by `int(str)`: space, tab, newline, carriage
return, vertical tab, form feed (ASCII subset). -/
def isPySpace (c : Char) : Bool :=
  c = ' ' || c = '\t' || c = '\n' || c = '\x0d' || c = '\x0b' || c = '\x0c'

/-- Digit-run parser for Python `int(str)`: after the first digit, single
underscores may appear, but only between two digits. -/
def digitsGo : List Char → Nat → Option Nat
  | [], acc => some acc
  | '_' :: rest, acc =>
    match rest with
    | [] => none
    | c :: rest' =>
      if c.isDigit then digitsGo rest' (acc * 10 + (c.toNat - 48)) else none
  | c :: rest, acc =>
    if c.isDigit then digitsGo rest (acc * 10 + (c.toNat - 48)) else none

/-- A nonempty digit run (underscore-separated groups allowed), the body of
Python `int(str)` after sign handling. -/
def digitsCore : List Char → Option Nat
  | [] => none
  | c :: rest => if c.isDigit then digitsGo rest (c.toNat - 48) else none

/-- Python `int(str)` on a character list (ASCII behaviour): strip
whitespace, optional single sign, then a digit run.  `none` models a
raised `ValueError`. -/
def pyIntChars (cs : List Char) : Option Int :=
  let t := ((cs.dropWhile isPySpace).reverse.dropWhile isPySpace).reverse
  match t with
  | '+' :: rest => (digitsCore rest).map Int.ofNat
  | '-' :: rest => (digitsCore rest).map (fun n => -(Int.ofNat n))
  | _ => (digitsCore t).map Int.ofNat

/-- First dotted segment of the remainder of `device_location` after the
hub prefix: `device_location[len(hub_location)+1:].split(".")[0]`. -/
def firstSegAfter (dl hl : String) : List Char :=
  (dl.toList.drop (hl.toList.length + 1)).takeWhile (fun c => c ≠ '.')

/-- `port_to_channel(device_location, hub_location)` from `hub_agent.py`:
maps a device's USB location to a hub channel, or `none`. -/
def port_to_channel (device_location hub_location : Option String) : Option Channel :=
  if !truthyS device_location || !truthyS hub_location then none
  else
    let dl := device_location.getD ""
    let hl := hub_location.getD ""
    if !(List.isPrefixOf (hl.toList ++ ['.']) dl.toList) then none
    else
      match pyIntChars (firstSegAfter dl hl) with
      | none => none
      | some port =>
        if 1 ≤ port ∧ port ≤ 3 then
          (if port = 1 then some Channel.CH1
           else if port = 2 then some Channel.CH2
           else some Channel.CH3)
        else none

example : port_to_channel (some "20-3.3.1") (some "20-3.3") = some Channel.CH1 := by decide
example : port_to_channel (some "20-3.3.4") (some "20-3.3") = none := by decide
example : port_to_channel (some "20-3.4.1") (some "20-3.3") = none := by decide
example : port_to_channel none (some "20-3.3") = none := by decide
example : port_to_channel (some "20-3.3.2.1") (some "20-3.3") = some Channel.CH2 := by decide
example : port_to_channel (some "20-3.3.x") (some "20-3.3") = none := by decide
example : port_to_channel (some ".1") (some "") = none := by decide

/-- `MAX_NAME_LEN = 14`. -/
def MAX_NAME_LEN : Nat := 14

/-- `truncate(s)`: truncate a string to `MAX_NAME_LEN` characters
(Python slices by character). -/
def truncate (s : String) : String :=
  if s.toList.length > MAX_NAME_LEN then String.mk (s.toList.take MAX_NAME_LEN) else s

/-- One text line of a display: `{"txt": ..., "color": ...}`. -/
structure Line where
  txt : String
  color : String
deriving DecidableEq

/-- The `Dev1_name` block: line `T1` always, line `T2` only when present. -/
structure NameLines where
  t1 : Line
  t2 : Option Line
deriving DecidableEq

/-- A display dict as pushed to one channel:
`{"Dev1_name": ..., "numDev": "10", "usbType": "2"}`. -/
structure Display where
  dev1_name : NameLines
  numDev : String
  usbType : String
deriving DecidableEq

/-- The `color_map` dict of `_build_display` (`.get` returns `none` for
unknown states). -/
def color_map (state : String) : Option String :=
  if state = "running" then some "GREEN"
  else if state = "bootloader" then some "ORANGE"
  else if state = "sleeping" then some "CYAN"
  else if state = "off" then some "RED"
  else if state = "disconnected" then some "RED"
  else none

/-- `_build_display(hub_name, state)`: a name line coloured by state, plus
a status line with the state text when the state is not `"running"`. -/
def build_display (hub_name state : String) : Display :=
  let name_color := (color_map state).getD "GREEN"
  { dev1_name :=
      { t1 := { txt := truncate hub_name, color := name_color },
        t2 := if state ≠ "running"
              then some { txt := state, color := (color_map state).getD "DARKGREY" }
              else none },
    numDev := "10", usbType := "2" }

/-- `_empty_display()`: the placeholder frame for an unoccupied channel. -/
def empty_display : Display :=
  { dev1_name := { t1 := { txt := "---", color := "DARKGREY" }, t2 := none },
    numDev := "10", usbType := "2" }

/-- One registry entry from `devices.conf` (all four fields are always
set by `parse_devices_conf`). -/
structure DeviceRec where
  name : String
  serial_number : String
  type : String
  hub_name : String
deriving DecidableEq

/-- One entry of the `comports()` bus snapshot; `serial_number` and
`location` may be `None`, and `device` is the openable path (modelled as
optional so that the code's own `not port_info.device` guard is
exercised). -/
structure PortInfo where
  serial_number : Option String
  location : Option String
  device : Option String
deriving DecidableEq

/-- `_probe_state(port_info, device_type)` with the hardware's answer to
`probe_bootloader` abstracted as `oracle`; also counts how many times
`probe_bootloader` is invoked (0 or 1). -/
def probe_state (p : PortInfo) (device_type : String) (oracle : String → Bool) :
    String × Nat :=
  if !truthyS p.device then ("sleeping", 0)
  else if device_type = "esp32" then
    (if oracle (p.device.getD "") then "bootloader" else "running", 1)
  else ("running", 0)

/-- The `channel_devices` dict built at the top of `_scan_channels`: skip
ports with a falsy or unregistered serial, map the location to a channel,
last write wins.  The registry record is carried along (the source looks
it up again as `self.devices[sn]`). -/
def channel_devices (devices : String → Option DeviceRec) (hub_location : Option String)
    (ports : List PortInfo) : ChanMap (String × DeviceRec × PortInfo) :=
  ports.foldl
    (fun acc p =>
      match p.serial_number with
      | none => acc
      | some sn =>
        if sn = "" then acc
        else
          match devices sn with
          | none => acc
          | some dev =>
            match port_to_channel p.location hub_location with
            | some ch => acc.set ch (sn, dev, p)
            | none => acc)
    ChanMap.empty

/-- What one iteration of the per-channel loop of `_scan_channels`
produces for a channel: the display, the resulting `_channel_serials[ch]`
and `_channel_states[ch]` entries, whether `_probe_state` ran
(`probedNow`) and how many `probe_bootloader` calls it made. -/
structure ChannelOutcome where
  display : Display
  newSerial : Option String
  newMode : Option String
  probedNow : Bool
  blProbes : Nat
deriving DecidableEq

/-- The body of the per-channel loop of `_scan_channels` for channel `ch`,
reading the previous `_channel_serials` / `_channel_states`. -/
def scan_one (oracle : String → Bool) (serials states : ChanMap String) (ch : Channel)
    (occ : Option (String × DeviceRec × PortInfo)) : ChannelOutcome :=
  match occ with
  | some (sn, dev, p) =>
    let prev := serials.get ch
    if some sn ≠ prev then
      let st := (probe_state p dev.type oracle).1
      { display := build_display dev.hub_name st, newSerial := some sn,
        newMode := some st, probedNow := true,
        blProbes := (probe_state p dev.type oracle).2 }
    else
      let st := (states.get ch).getD "running"
      { display := build_display dev.hub_name st, newSerial := some sn,
        newMode := states.get ch, probedNow := false, blProbes := 0 }
  | none =>
    { display := empty_display, newSerial := none, newMode := none,
      probedNow := false, blProbes := 0 }

/-- The mutable channel caches of a `HubAgent`: `_channel_display` (push
cache), `_channel_serials`, `_channel_states`. -/
structure AgentState where
  channel_display : ChanMap Display
  channel_serials : ChanMap String
  channel_states : ChanMap String
deriving DecidableEq

/-- An agent with all three caches empty (the state right after
`__init__` or `_reconnect`). -/
def emptyAgentState : AgentState := ⟨ChanMap.empty, ChanMap.empty, ChanMap.empty⟩

/-- Result of `_scan_channels`: the updated agent state and the
per-channel outcome (whose `display` field is the returned dict). -/
structure ScanOut where
  state : AgentState
  out : Channel → ChannelOutcome

/-- `_scan_channels` of `HubAgent`: build `channel_devices` from the bus
snapshot, then walk the three channels, probing only on occupant change,
popping caches for unoccupied channels. -/
def scan_channels (devices : String → Option DeviceRec) (hub_location : Option String)
    (oracle : String → Bool) (st : AgentState) (ports : List PortInfo) : ScanOut :=
  let cd := channel_devices devices hub_location ports
  let f : Channel → ChannelOutcome :=
    fun ch => scan_one oracle st.channel_serials st.channel_states ch (cd.get ch)
  { state :=
      { channel_display := st.channel_display,
        channel_serials :=
          ⟨(f Channel.CH1).newSerial, (f Channel.CH2).newSerial, (f Channel.CH3).newSerial⟩,
        channel_states :=
          ⟨(f Channel.CH1).newMode, (f Channel.CH2).newMode, (f Channel.CH3).newMode⟩ },
    out := f }

/-- One `_push_channel` call issued by `refresh`: which channel, which
display dict, and whether it was logged. -/
structure PushRec where
  channel : Channel
  display : Display
  logged : Bool
deriving DecidableEq

/-- Result of `refresh`: the updated agent state and the pushes issued in
order. -/
structure RefreshOut where
  state : AgentState
  pushes : List PushRec
deriving DecidableEq

/-- `refresh(log_changes_only)` of `HubAgent`: scan, then push every
channel unconditionally, logging only changed frames unless a full
refresh was requested; the push cache is updated to the pushed frames. -/
def refresh (devices : String → Option DeviceRec) (hub_location : Option String)
    (oracle : String → Bool) (st : AgentState) (ports : List PortInfo)
    (log_changes_only : Bool) : RefreshOut :=
  let s := scan_channels devices hub_location oracle st ports
  let pushes := CHANNELS.map (fun ch =>
    let display := (s.out ch).display
    let changed := decide (st.channel_display.get ch ≠ some display)
    { channel := ch, display := display,
      logged := changed || !log_changes_only : PushRec })
  { state :=
      { s.state with channel_display :=
          ⟨some (s.out Channel.CH1).display, some (s.out Channel.CH2).display,
           some (s.out Channel.CH3).display⟩ },
    pushes := pushes }

/-- The cache-clearing effect of `_reconnect`: `_channel_display`,
`_channel_serials` and `_channel_states` are all cleared (hub
rediscovery and reopening are external I/O, not modelled). -/
def reconnect_clear (_st : AgentState) : AgentState := emptyAgentState

/-- `ESP_SYNC = 0x08`. -/
def ESP_SYNC : Nat := 0x08

/-- `sync_data = b"\x07\x07\x12\x20" + 32 * b"\x55"`. -/
def sync_data : List Nat := [0x07, 0x07, 0x12, 0x20] ++ List.replicate 32 0x55

/-- Little-endian 16-bit encoding (the `H` of `struct.pack("<BBHI", ...)`). -/
def le16 (n : Nat) : List Nat := [n % 256, n / 256 % 256]

/-- Little-endian 32-bit encoding (the `I` of `struct.pack("<BBHI", ...)`). -/
def le32 (n : Nat) : List Nat :=
  [n % 256, n / 256 % 256, n / 65536 % 256, n / 16777216 % 256]

/-- `pkt = struct.pack("<BBHI", 0x00, ESP_SYNC, len(sync_data), 0) + sync_data`. -/
def sync_pkt : List Nat :=
  [0x00 % 256, ESP_SYNC % 256] ++ le16 sync_data.length ++ le32 0 ++ sync_data

/-- The loop body of the SLIP encoder: escape `0xC0` as `0xDB 0xDC` and
`0xDB` as `0xDB 0xDD`, pass every other byte through. -/
def slipEscByte (b : Nat) : List Nat :=
  if b = 0xC0 then [0xDB, 0xDC] else if b = 0xDB then [0xDB, 0xDD] else [b]

/-- The `for b in pkt` loop of `probe_bootloader`, accumulating `frame`. -/
def slipStuff (l : List Nat) : List Nat :=
  l.foldl (fun acc b => acc ++ slipEscByte b) []

/-- The complete SLIP frame `probe_bootloader` writes: `b"\xc0"`, the
escaped packet, `b"\xc0"`. -/
def sync_frame : List Nat := 0xC0 :: slipStuff sync_pkt ++ [0xC0]

/-- Outcome of the serial session attempted by `probe_bootloader`: an
`OSError`-style exception at open, write/flush or read, or a successful
session in which `pending` bytes were available to `s.read(100)`. -/
inductive ProbeWorld where
  | openErr
  | writeErr
  | readErr
  | ok (pending : List Nat)
deriving DecidableEq

/-- `probe_bootloader(port_path)`: on any exception return `False`,
otherwise classify the bytes read (`resp = s.read(100)`) by
`b"\xc0" in resp and len(resp) > 4`. -/
def probe_bootloader (w : ProbeWorld) : Bool :=
  match w with
  | ProbeWorld.openErr => false
  | ProbeWorld.writeErr => false
  | ProbeWorld.readErr => false
  | ProbeWorld.ok pending =>
    let resp := pending.take 100
    resp.contains 0xC0 && decide (resp.length > 4)

/-- Python values produced by `json.loads` of a reply line. -/
inductive PyJson where
  | null
  | bool (b : Bool)
  | num (n : Int)
  | str (s : String)
  | arr (xs : List PyJson)
  | obj (fields : List (String × PyJson))

/-- Python truthiness of a parsed JSON value. -/
def truthyJson (v : PyJson) : Bool :=
  match v with
  | PyJson.null => false
  | PyJson.bool b => b
  | PyJson.num n => decide (n ≠ 0)
  | PyJson.str s => decide (s ≠ "")
  | PyJson.arr xs => !xs.isEmpty
  | PyJson.obj fields => !fields.isEmpty

/-- `dict.get(k)` on the fields of a parsed JSON object (later duplicate
keys win, as in a Python dict built left to right). -/
def dictGet (fields : List (String × PyJson)) (k : String) : Option PyJson :=
  fields.foldl (fun acc kv => if kv.1 = k then some kv.2 else acc) none

/-- Whether a parsed JSON value is an object (only objects support
`.get`; on anything truthy that is not a dict, `result.get("status")`
raises `AttributeError`). -/
def isObjJson (v : PyJson) : Bool :=
  match v with
  | PyJson.obj _ => true
  | _ => false

/-- What happened on the serial link during one `_send` call: connection
not open, `OSError` during write/flush/readline, an empty line (read
timeout), a line that raises `JSONDecodeError`, or a line parsed to a
value. -/
inductive Reply where
  | closed
  | ioErr
  | timeout
  | parseFail
  | parsed (v : PyJson)

/-- `_send(msg)`: the returned value (parsed reply or `None`) and whether
`_hub_lost` was set.  Only the `OSError` branch sets `_hub_lost`. -/
def send (r : Reply) : Option PyJson × Bool :=
  match r with
  | Reply.closed => (none, false)
  | Reply.ioErr => (none, true)
  | Reply.timeout => (none, false)
  | Reply.parseFail => (none, false)
  | Reply.parsed v => (some v, false)

/-- Whether a `_send` call left `_hub_lost` set. -/
def hub_lost_flag (r : Reply) : Bool := (send r).2

/-- The success computation of `_push_channel`:
`ok = result and result.get("status") == "ok"`, with the Python
truthiness semantics; `Except.error ()` models the uncaught
`AttributeError` raised when `result` is truthy but not a dict. -/
def push_ok (r : Reply) : Except Unit Bool :=
  match (send r).1 with
  | none => Except.ok false
  | some v =>
    if truthyJson v then
      match v with
      | PyJson.obj fields =>
        Except.ok
          (match dictGet fields "status" with
           | some (PyJson.str s) => decide (s = "ok")
           | _ => false)
      | _ => Except.error ()
    else Except.ok false

example : push_ok (Reply.parsed (PyJson.obj [("status", PyJson.str "ok")])) =
    Except.ok true := by rfl
example : push_ok (Reply.parsed (PyJson.obj [("status", PyJson.str "busy")])) =
    Except.ok false := by rfl
example : push_ok (Reply.parsed (PyJson.num 42)) = Except.error () := by rfl
example : push_ok Reply.timeout = Except.ok false := by rfl
example : hub_lost_flag Reply.ioErr = true := by rfl
example : hub_lost_flag Reply.parseFail = false := by rfl

/-- Escaping a single byte never yields the framing byte `0xC0`. -/
theorem slipEscByte_no_c0 (b : Nat) : 0xC0 ∉ slipEscByte b := by
  unfold slipEscByte
  by_cases h1 : b = 0xC0
  · simp [h1]
  · by_cases h2 : b = 0xDB
    · simp [h2]
    · simp [h1, h2]
      omega

/-- The byte-stuffed body of a SLIP frame contains no `0xC0`, whatever the
input packet. -/
theorem slipStuff_no_c0 (l : List Nat) : 0xC0 ∉ slipStuff l := by
  suffices h : ∀ acc : List Nat, 0xC0 ∉ acc →
      0xC0 ∉ l.foldl (fun acc b => acc ++ slipEscByte b) acc by
    exact h [] (by simp)
  induction l with
  | nil => intro acc hacc; simpa using hacc
  | cons b rest ih =>
    intro acc hacc
    simp only [List.foldl_cons]
    refine ih _ ?_
    simp only [List.mem_append, not_or]
    exact ⟨hacc, slipEscByte_no_c0 b⟩

/--
C9: the probe's sync frame is an 8-byte header (direction `0x00`, command
`ESP_SYNC`, little-endian 16-bit payload length 36, little-endian 32-bit
checksum placeholder 0) followed by the 36-byte payload (4 magic bytes
plus 32 filler bytes `0x55`), SLIP byte-stuffed and wrapped in a single
`0xC0` at each end; consequently `0xC0` occurs in the encoded frame only
as its first and last byte.
-/
theorem sync_frame_spec :
    sync_frame =
      [0xC0] ++
        slipStuff ([0x00, ESP_SYNC] ++ le16 36 ++ le32 0 ++
          ([0x07, 0x07, 0x12, 0x20] ++ List.replicate 32 0x55)) ++
        [0xC0] ∧
    sync_data.length = 36 ∧
    sync_frame.head? = some 0xC0 ∧
    sync_frame.getLast? = some 0xC0 ∧
    sync_frame.count 0xC0 = 2 := by
  refine ⟨by decide, by decide, by decide, by decide, ?_⟩
  decide

/--
C5: `probe_bootloader` classifies the device as boot-ROM (returns `true`)
exactly when the read succeeded and the response (`s.read(100)`, i.e. at
most the first 100 pending bytes) is longer than 4 bytes and contains the
framing byte `0xC0`; any I/O exception at open, write or read yields
`false`, and the function is total (never propagates an error).
-/
theorem probe_bootloader_classification :
    (∀ w : ProbeWorld,
      probe_bootloader w = true ↔
        ∃ pending, w = ProbeWorld.ok pending ∧
          (pending.take 100).length > 4 ∧ (pending.take 100).contains 0xC0 = true) ∧
    probe_bootloader ProbeWorld.openErr = false ∧
    probe_bootloader ProbeWorld.writeErr = false ∧
    probe_bootloader ProbeWorld.readErr = false := by
  refine ⟨?_, rfl, rfl, rfl⟩
  intro w
  cases w with
  | openErr => simp [probe_bootloader]
  | writeErr => simp [probe_bootloader]
  | readErr => simp [probe_bootloader]
  | ok pending =>
    simp only [probe_bootloader, Bool.and_eq_true, decide_eq_true_eq]
    constructor
    · rintro ⟨hc, hl⟩
      exact ⟨pending, rfl, hl, hc⟩
    · rintro ⟨p', hp', hl, hc⟩
      cases hp'
      exact ⟨hc, hl⟩


/--
C2 counterexample: with `hub_location = ""` (present, not absent) and
`device_location = ".1"`, the location is a strict dotted extension of the
hub location (`"" + "."` is a prefix of `".1"`) and the first segment
after the prefix parses as port 1, so the claim requires `CH1`; the code
returns `none` because its guard `not hub_location` also rejects the
empty string.
-/
theorem port_to_channel_empty_hub_cex :
    port_to_channel (some ".1") (some "") = none ∧
    List.isPrefixOf (("" : String).toList ++ ['.']) ((".1" : String).toList) = true ∧
    pyIntChars (firstSegAfter ".1" "") = some 1 := by
  refine ⟨by decide, by decide, by decide⟩

/--
C2 (amended): `port_to_channel` returns `none` if either input is absent
or the empty string; `none` when `device_location` does not extend
`hub_location + "."`; `none` when the first segment after the prefix does
not parse as a Python integer; and for non-empty inputs that pass both
checks with parsed port `p`, it returns CH1/CH2/CH3 for `p` = 1/2/3 and
`none` for every other port number.  The spec's concrete examples for
`hub_location = "20-3.3"` hold.
-/
theorem port_to_channel_characterization :
    (∀ hl, port_to_channel none hl = none) ∧
    (∀ dl, port_to_channel dl none = none) ∧
    (∀ hl, port_to_channel (some "") hl = none) ∧
    (∀ dl, port_to_channel dl (some "") = none) ∧
    (∀ dl hl : String, List.isPrefixOf (hl.toList ++ ['.']) dl.toList = false →
      port_to_channel (some dl) (some hl) = none) ∧
    (∀ dl hl : String, pyIntChars (firstSegAfter dl hl) = none →
      port_to_channel (some dl) (some hl) = none) ∧
    (∀ (dl hl : String) (p : Int), dl ≠ "" → hl ≠ "" →
      List.isPrefixOf (hl.toList ++ ['.']) dl.toList = true →
      pyIntChars (firstSegAfter dl hl) = some p →
      port_to_channel (some dl) (some hl) =
        (if p = 1 then some Channel.CH1
         else if p = 2 then some Channel.CH2
         else if p = 3 then some Channel.CH3
         else none)) ∧
    port_to_channel (some "20-3.3.1") (some "20-3.3") = some Channel.CH1 ∧
    port_to_channel (some "20-3.3.4") (some "20-3.3") = none ∧
    port_to_channel (some "20-3.4.1") (some "20-3.3") = none ∧
    port_to_channel none (some "20-3.3") = none := by
  refine ⟨?_, ?_, ?_, ?_, ?_, ?_, ?_, by decide, by decide, by decide, by decide⟩
  · intro hl; simp [port_to_channel, truthyS]
  · intro dl; simp [port_to_channel, truthyS]
  · intro hl; simp [port_to_channel, truthyS]
  · intro dl; simp [port_to_channel, truthyS]
  · intro dl hl h
    have h' : ¬(hl.toList ++ ['.'] <+: dl.toList) := by
      intro hp
      rw [← List.isPrefixOf_iff_prefix, h] at hp
      exact Bool.false_ne_true hp
    by_cases hd : dl = ""
    · simp [port_to_channel, truthyS, hd]
    · by_cases hh : hl = ""
      · simp [port_to_channel, truthyS, hh]
      · simp [port_to_channel, truthyS, hd, hh]
        intro hp
        exact absurd hp h'
  · intro dl hl h
    by_cases hd : dl = ""
    · simp [port_to_channel, truthyS, hd]
    · by_cases hh : hl = ""
      · simp [port_to_channel, truthyS, hh]
      · by_cases hpre : hl.toList ++ ['.'] <+: dl.toList
        · simp [port_to_channel, truthyS, hd, hh, hpre, h]
        · simp [port_to_channel, truthyS, hd, hh]
          intro hp
          exact absurd hp hpre
  · intro dl hl p hd hh hpre hint
    have hpre' : hl.toList ++ ['.'] <+: dl.toList := by simpa using hpre
    have htrue : ((hl.toList ++ ['.']).isPrefixOf dl.toList) = true :=
      List.isPrefixOf_iff_prefix.mpr hpre'
    simp [port_to_channel, truthyS, hd, hh, hpre', hint]
    by_cases p1 : p = 1
    · subst p1
      norm_num
      intro hx
      have hx' : ((hl.toList ++ ['.']).isPrefixOf dl.toList) = false := hx
      rw [htrue] at hx'
      exact Bool.noConfusion hx'
    · by_cases p2 : p = 2
      · subst p2
        norm_num
        intro hx
        have hx' : ((hl.toList ++ ['.']).isPrefixOf dl.toList) = false := hx
        rw [htrue] at hx'
        exact Bool.noConfusion hx'
      · by_cases p3 : p = 3
        · subst p3
          norm_num
          intro hx
          have hx' : ((hl.toList ++ ['.']).isPrefixOf dl.toList) = false := hx
          rw [htrue] at hx'
          exact Bool.noConfusion hx'
        · have hr : ¬(1 ≤ p ∧ p ≤ 3) := by omega
          simp [hr, p1, p2, p3]

/-- Witness for the amended C2 characterization: the port-number clause
applied at the concrete input `("20-3.3.2", "20-3.3")`. -/
theorem port_to_channel_characterization_witness :
    port_to_channel (some "20-3.3.2") (some "20-3.3") = some Channel.CH2 := by
  have h := (port_to_channel_characterization).2.2.2.2.2.2.1
      "20-3.3.2" "20-3.3" 2 (by decide) (by decide) (by decide) (by decide)
  simpa using h

/-- The serials cache written by `_scan_channels` at a channel equals the
per-channel outcome's `newSerial`. -/
theorem scan_channels_serials_get (devices : String → Option DeviceRec)
    (hub_location : Option String) (oracle : String → Bool) (st : AgentState)
    (ports : List PortInfo) (ch : Channel) :
    (scan_channels devices hub_location oracle st ports).state.channel_serials.get ch
      = ((scan_channels devices hub_location oracle st ports).out ch).newSerial := by
  cases ch <;> rfl

/-- The states cache written by `_scan_channels` at a channel equals the
per-channel outcome's `newMode`. -/
theorem scan_channels_states_get (devices : String → Option DeviceRec)
    (hub_location : Option String) (oracle : String → Bool) (st : AgentState)
    (ports : List PortInfo) (ch : Channel) :
    (scan_channels devices hub_location oracle st ports).state.channel_states.get ch
      = ((scan_channels devices hub_location oracle st ports).out ch).newMode := by
  cases ch <;> rfl

/-- Rescanning a channel whose caches already record the outcome of a
previous scan takes the cached branch: same display, no `_probe_state`
call, no bootloader probe. -/
theorem scan_one_stable (oracle : String → Bool) (s0 t0 s1 t1 : ChanMap String)
    (ch : Channel) (occ : Option (String × DeviceRec × PortInfo))
    (hs : s1.get ch = (scan_one oracle s0 t0 ch occ).newSerial)
    (ht : t1.get ch = (scan_one oracle s0 t0 ch occ).newMode) :
    scan_one oracle s1 t1 ch occ =
      { scan_one oracle s0 t0 ch occ with probedNow := false, blProbes := 0 } := by
  cases occ with
  | none => rfl
  | some x =>
    obtain ⟨sn, dev, p⟩ := x
    by_cases h0 : some sn ≠ s0.get ch
    · simp only [scan_one, if_pos h0] at hs ht
      have hcond : ¬(some sn ≠ s1.get ch) := by rw [hs]; simp
      simp only [scan_one, if_pos h0, if_neg hcond]
      rw [ht]
      simp
    · simp only [scan_one, if_neg h0] at hs ht
      have hcond : ¬(some sn ≠ s1.get ch) := by rw [hs]; simp
      simp only [scan_one, if_neg h0, if_neg hcond]
      rw [ht]

/--
C1: calling `_scan_channels` twice in a row with the same bus
observations, registry, hub location and probe behaviour produces the
same DisplayFrame on every channel the second time, and the second call
makes no bootloader probe invocation (`blProbes = 0`) and never re-runs
`_probe_state` (`probedNow = false`): the cached per-channel mode is
reused.
-/
theorem scan_channels_idempotent :
    ∀ (devices : String → Option DeviceRec) (hub_location : Option String)
      (oracle : String → Bool) (st : AgentState) (ports : List PortInfo) (ch : Channel),
      ((scan_channels devices hub_location oracle
          (scan_channels devices hub_location oracle st ports).state ports).out ch).display
        = ((scan_channels devices hub_location oracle st ports).out ch).display ∧
      ((scan_channels devices hub_location oracle
          (scan_channels devices hub_location oracle st ports).state ports).out ch).probedNow
        = false ∧
      ((scan_channels devices hub_location oracle
          (scan_channels devices hub_location oracle st ports).state ports).out ch).blProbes
        = 0 := by
  intro devices hub_location oracle st ports ch
  have key := scan_one_stable oracle st.channel_serials st.channel_states
      (scan_channels devices hub_location oracle st ports).state.channel_serials
      (scan_channels devices hub_location oracle st ports).state.channel_states
      ch ((channel_devices devices hub_location ports).get ch)
      (scan_channels_serials_get devices hub_location oracle st ports ch)
      (scan_channels_states_get devices hub_location oracle st ports ch)
  exact ⟨(congrArg ChannelOutcome.display key).trans rfl,
    (congrArg ChannelOutcome.probedNow key).trans rfl,
    (congrArg ChannelOutcome.blProbes key).trans rfl⟩

/--
C10: after every `_scan_channels` call, a channel has a cached occupant
serial exactly when it is occupied in that scan, and a cached mode only
if it is occupied: unoccupied channels have both caches popped, so no
stale occupant or mode survives for an empty channel.
-/
theorem scan_channels_cache_invariant :
    ∀ (devices : String → Option DeviceRec) (hub_location : Option String)
      (oracle : String → Bool) (st : AgentState) (ports : List PortInfo) (ch : Channel),
      (((scan_channels devices hub_location oracle st ports).state.channel_serials.get ch).isSome
        = ((channel_devices devices hub_location ports).get ch).isSome) ∧
      ((!((scan_channels devices hub_location oracle st ports).state.channel_states.get ch).isSome)
        || ((channel_devices devices hub_location ports).get ch).isSome) = true := by
  intro devices hub_location oracle st ports ch
  rw [scan_channels_serials_get, scan_channels_states_get]
  have hout : (scan_channels devices hub_location oracle st ports).out ch
      = scan_one oracle st.channel_serials st.channel_states ch
          ((channel_devices devices hub_location ports).get ch) := rfl
  rw [hout]
  cases hocc : (channel_devices devices hub_location ports).get ch with
  | none => simp [scan_one]
  | some x =>
    obtain ⟨sn, dev, p⟩ := x
    by_cases h0 : some sn ≠ st.channel_serials.get ch
    · simp [scan_one, if_pos h0]
    · simp [scan_one, if_neg h0]

/-- Fixture: a registry with one generic device `abc123`. -/
def exDevices : String → Option DeviceRec :=
  fun s => if s = "abc123" then
    some { name := "sensor-a", serial_number := "abc123", type := "generic",
           hub_name := "sensor-a" }
  else none

/-- Fixture: a registry with one esp32-class device `esp1`. -/
def exDevicesEsp : String → Option DeviceRec :=
  fun s => if s = "esp1" then
    some { name := "board-b", serial_number := "esp1", type := "esp32",
           hub_name := "board-b" }
  else none

/-- Fixture: a probe oracle that always answers "not in bootloader". -/
def exOracle : String → Bool := fun _ => false

/-- Fixture: a probe oracle that always answers "in bootloader". -/
def exOracleTrue : String → Bool := fun _ => true

/-- Fixture: `abc123` observed on port 1 of the hub with no openable
device path. -/
def portNoPath : PortInfo :=
  { serial_number := some "abc123", location := some "20-3.3.1", device := none }

/-- Fixture: `abc123` observed on port 2 of the hub with no openable
device path. -/
def portNoPath2 : PortInfo :=
  { serial_number := some "abc123", location := some "20-3.3.2", device := none }

/-- Fixture: `esp1` observed on port 3 of the hub with an openable path. -/
def portEsp : PortInfo :=
  { serial_number := some "esp1", location := some "20-3.3.3",
    device := some "/dev/cu.usbmodem1" }

/-- Fixture: agent state in which CH1 already cached occupant `abc123`
with mode `running` from an earlier scan. -/
def stC3 : AgentState :=
  { channel_display := ChanMap.empty,
    channel_serials := { c1 := some "abc123", c2 := none, c3 := none },
    channel_states := { c1 := some "running", c2 := none, c3 := none } }

/--
C3 counterexample: channel CH1 is occupied by registered device `abc123`
whose device path is unavailable (`device = none`), yet because the
occupant is unchanged from the previous scan the cached mode `running` is
reused: the mode does not become `sleeping` and the frame carries no
status line, contradicting the claim that such a channel is assigned
mode = sleeping.
-/
theorem scan_sleeping_cex :
    (channel_devices exDevices (some "20-3.3") [portNoPath]).get Channel.CH1
      = some ("abc123",
          { name := "sensor-a", serial_number := "abc123", type := "generic",
            hub_name := "sensor-a" }, portNoPath) ∧
    portNoPath.device = none ∧
    stC3.channel_serials.get Channel.CH1 = some "abc123" ∧
    ((scan_channels exDevices (some "20-3.3") exOracle stC3 [portNoPath]).out
        Channel.CH1).newMode = some "running" ∧
    ((scan_channels exDevices (some "20-3.3") exOracle stC3 [portNoPath]).out
        Channel.CH1).newMode ≠ some "sleeping" ∧
    ((scan_channels exDevices (some "20-3.3") exOracle stC3 [portNoPath]).out
        Channel.CH1).display.dev1_name.t2 = none := by
  refine ⟨by decide, by decide, by decide, by decide, by decide, by decide⟩

/--
C3 (amended): mode = sleeping is assigned exactly in the scan in which a
channel's occupant changes (newly appears or differs from the cached
occupant) while the observation's device path is unavailable; the frame
then carries a status line `"sleeping"` in the color mapped for sleeping
(CYAN), and no bootloader probe is invoked.  (An unchanged occupant keeps
its cached mode even if its device path becomes unavailable, as the
counterexample shows.)
-/
theorem scan_sleeping_on_new_occupant :
    ∀ (devices : String → Option DeviceRec) (hub_location : Option String)
      (oracle : String → Bool) (st : AgentState) (ports : List PortInfo)
      (ch : Channel) (sn : String) (dev : DeviceRec) (p : PortInfo),
      (channel_devices devices hub_location ports).get ch = some (sn, dev, p) →
      st.channel_serials.get ch ≠ some sn →
      truthyS p.device = false →
      ((scan_channels devices hub_location oracle st ports).out ch).newMode
          = some "sleeping" ∧
      ((scan_channels devices hub_location oracle st ports).out ch).display
          = build_display dev.hub_name "sleeping" ∧
      ((scan_channels devices hub_location oracle st ports).out ch).display.dev1_name.t2
          = some { txt := "sleeping", color := "CYAN" } ∧
      ((scan_channels devices hub_location oracle st ports).out ch).blProbes = 0 := by
  intro devices hub_location oracle st ports ch sn dev p hocc hchg hdev
  have hout : (scan_channels devices hub_location oracle st ports).out ch
      = scan_one oracle st.channel_serials st.channel_states ch
          ((channel_devices devices hub_location ports).get ch) := rfl
  rw [hout, hocc]
  have h0 : some sn ≠ st.channel_serials.get ch := fun h => hchg h.symm
  have hps : probe_state p dev.type oracle = ("sleeping", 0) := by
    simp [probe_state, hdev]
  simp [scan_one, h0, hps, build_display, color_map]

/-- Witness for the amended C3 theorem: a fresh occupant with an
unavailable device path on CH1, starting from empty caches. -/
theorem scan_sleeping_on_new_occupant_witness :
    ((scan_channels exDevices (some "20-3.3") exOracle emptyAgentState [portNoPath]).out
        Channel.CH1).newMode = some "sleeping" ∧
    ((scan_channels exDevices (some "20-3.3") exOracle emptyAgentState [portNoPath]).out
        Channel.CH1).display.dev1_name.t2
      = some { txt := "sleeping", color := "CYAN" } := by
  have h := scan_sleeping_on_new_occupant exDevices (some "20-3.3") exOracle
      emptyAgentState [portNoPath] Channel.CH1 "abc123"
      { name := "sensor-a", serial_number := "abc123", type := "generic",
        hub_name := "sensor-a" }
      portNoPath (by decide) (by decide) (by decide)
  exact ⟨h.1, h.2.2.1⟩

/--
C6 counterexample: a new occupant (`abc123`, registry kind `generic`)
appears on CH2 with an unavailable device path; the claim says a
non-microcontroller occupant's mode defaults to running, but the code
assigns `sleeping` (zero probes).
-/
theorem scan_occupant_change_cex :
    (channel_devices exDevices (some "20-3.3") [portNoPath2]).get Channel.CH2
      = some ("abc123",
          { name := "sensor-a", serial_number := "abc123", type := "generic",
            hub_name := "sensor-a" }, portNoPath2) ∧
    emptyAgentState.channel_serials.get Channel.CH2 = none ∧
    ((scan_channels exDevices (some "20-3.3") exOracle emptyAgentState [portNoPath2]).out
        Channel.CH2).newMode = some "sleeping" ∧
    ((scan_channels exDevices (some "20-3.3") exOracle emptyAgentState [portNoPath2]).out
        Channel.CH2).newMode ≠ some "running" ∧
    ((scan_channels exDevices (some "20-3.3") exOracle emptyAgentState [portNoPath2]).out
        Channel.CH2).blProbes = 0 := by
  refine ⟨by decide, by decide, by decide, by decide, by decide⟩

/--
C6 (amended): when a channel's occupant `hardware_id` changes (including
from empty) to a new occupant with registry record `dev` and observation
`p`, `_probe_state` runs for the new occupant (`probedNow = true`) and
no mode cached for the previous occupant is reused (the outcome is
independent of `_channel_states`); if `dev` is microcontroller-class
(`esp32`) and the device path is available, exactly one bootloader probe
runs and its result is cached as the mode; if `dev` is not
microcontroller-class and the path is available, the mode defaults to
running with zero probes; if the path is unavailable the mode is
sleeping with zero probes.
-/
theorem scan_probe_on_occupant_change :
    ∀ (devices : String → Option DeviceRec) (hub_location : Option String)
      (oracle : String → Bool) (st : AgentState) (ports : List PortInfo)
      (ch : Channel) (sn : String) (dev : DeviceRec) (p : PortInfo),
      (channel_devices devices hub_location ports).get ch = some (sn, dev, p) →
      st.channel_serials.get ch ≠ some sn →
      ((scan_channels devices hub_location oracle st ports).out ch).probedNow = true ∧
      (dev.type = "esp32" → truthyS p.device = true →
        ((scan_channels devices hub_location oracle st ports).out ch).blProbes = 1 ∧
        ((scan_channels devices hub_location oracle st ports).out ch).newMode
          = some (if oracle (p.device.getD "") then "bootloader" else "running")) ∧
      (dev.type ≠ "esp32" → truthyS p.device = true →
        ((scan_channels devices hub_location oracle st ports).out ch).blProbes = 0 ∧
        ((scan_channels devices hub_location oracle st ports).out ch).newMode
          = some "running") ∧
      (truthyS p.device = false →
        ((scan_channels devices hub_location oracle st ports).out ch).blProbes = 0 ∧
        ((scan_channels devices hub_location oracle st ports).out ch).newMode
          = some "sleeping") ∧
      (∀ states' : ChanMap String,
        (scan_channels devices hub_location oracle
            { st with channel_states := states' } ports).out ch
          = (scan_channels devices hub_location oracle st ports).out ch) := by
  intro devices hub_location oracle st ports ch sn dev p hocc hchg
  have h0 : some sn ≠ st.channel_serials.get ch := fun h => hchg h.symm
  have hout : (scan_channels devices hub_location oracle st ports).out ch
      = scan_one oracle st.channel_serials st.channel_states ch
          ((channel_devices devices hub_location ports).get ch) := rfl
  refine ⟨?_, ?_, ?_, ?_, ?_⟩
  · rw [hout, hocc]
    simp [scan_one, h0]
  · intro htype hdev
    have hps : probe_state p dev.type oracle =
        (if oracle (p.device.getD "") then "bootloader" else "running", 1) := by
      simp [probe_state, htype, hdev]
    rw [hout, hocc]
    simp [scan_one, h0, hps]
  · intro htype hdev
    have hps : probe_state p dev.type oracle = ("running", 0) := by
      simp [probe_state, htype, hdev]
    rw [hout, hocc]
    simp [scan_one, h0, hps]
  · intro hdev
    have hps : probe_state p dev.type oracle = ("sleeping", 0) := by
      simp [probe_state, hdev]
    rw [hout, hocc]
    simp [scan_one, h0, hps]
  · intro states'
    have hout' : (scan_channels devices hub_location oracle
        { st with channel_states := states' } ports).out ch
        = scan_one oracle st.channel_serials states' ch
            ((channel_devices devices hub_location ports).get ch) := rfl
    rw [hout, hout', hocc]
    simp [scan_one, h0]

/-- Witness for the amended C6 theorem: an esp32-class device appears on
CH3 with an available path and an oracle that reports bootloader mode. -/
theorem scan_probe_on_occupant_change_witness :
    ((scan_channels exDevicesEsp (some "20-3.3") exOracleTrue emptyAgentState [portEsp]).out
        Channel.CH3).probedNow = true ∧
    ((scan_channels exDevicesEsp (some "20-3.3") exOracleTrue emptyAgentState [portEsp]).out
        Channel.CH3).blProbes = 1 := by
  have h := scan_probe_on_occupant_change exDevicesEsp (some "20-3.3") exOracleTrue
      emptyAgentState [portEsp] Channel.CH3 "esp1"
      { name := "board-b", serial_number := "esp1", type := "esp32",
        hub_name := "board-b" }
      portEsp (by decide) (by decide)
  exact ⟨h.1, (h.2.1 (by decide) (by decide)).1⟩

/--
C7: every `refresh` cycle issues exactly one push per channel, for CH1,
CH2, CH3, carrying the frame computed by the scan — unconditionally,
whatever the push cache contains (changing `_channel_display` never
changes which pushes are sent, only the `logged` flags); the `logged`
flag is exactly "frame differs from the cached frame, or a full refresh
was requested".
-/
theorem refresh_pushes_unconditional :
    ∀ (devices : String → Option DeviceRec) (hub_location : Option String)
      (oracle : String → Bool) (st : AgentState) (cache' : ChanMap Display)
      (ports : List PortInfo) (log_changes_only : Bool),
      ((refresh devices hub_location oracle st ports log_changes_only).pushes.map
          (fun pr => (pr.channel, pr.display))
        = CHANNELS.map (fun ch =>
            (ch, ((scan_channels devices hub_location oracle st ports).out ch).display))) ∧
      ((refresh devices hub_location oracle { st with channel_display := cache' } ports
            log_changes_only).pushes.map (fun pr => (pr.channel, pr.display))
        = (refresh devices hub_location oracle st ports log_changes_only).pushes.map
            (fun pr => (pr.channel, pr.display))) ∧
      ((refresh devices hub_location oracle st ports log_changes_only).pushes.map
          (fun pr => pr.logged)
        = CHANNELS.map (fun ch =>
            (decide (st.channel_display.get ch
                ≠ some ((scan_channels devices hub_location oracle st ports).out ch).display)
              || !log_changes_only))) := by
  intro devices hub_location oracle st cache' ports log_changes_only
  refine ⟨rfl, rfl, rfl⟩

/--
C8: after a transport loss, `_reconnect` clears all cached channel state
(push cache, occupant serials, cached modes) — erasing every trace of the
pre-loss state — and the subsequent full refresh (`log_changes_only =
False`) pushes all three channels with every push logged; because the
occupant cache is empty, `_probe_state` runs for every channel occupied
in that refresh (`probedNow` is exactly occupancy).
-/
theorem reconnect_full_refresh :
    ∀ (devices : String → Option DeviceRec) (hub_location : Option String)
      (oracle : String → Bool) (st st' : AgentState) (ports : List PortInfo),
      reconnect_clear st = reconnect_clear st' ∧
      (reconnect_clear st).channel_display = ChanMap.empty ∧
      (reconnect_clear st).channel_serials = ChanMap.empty ∧
      (reconnect_clear st).channel_states = ChanMap.empty ∧
      ((refresh devices hub_location oracle (reconnect_clear st) ports false).pushes.map
          (fun pr => pr.logged) = [true, true, true]) ∧
      ((refresh devices hub_location oracle (reconnect_clear st) ports false).pushes.map
          (fun pr => (pr.channel, pr.display))
        = CHANNELS.map (fun ch =>
            (ch, ((scan_channels devices hub_location oracle (reconnect_clear st)
                ports).out ch).display))) ∧
      (∀ ch : Channel,
        ((scan_channels devices hub_location oracle (reconnect_clear st) ports).out
            ch).probedNow
          = ((channel_devices devices hub_location ports).get ch).isSome) := by
  intro devices hub_location oracle st st' ports
  refine ⟨rfl, rfl, rfl, rfl, by simp [refresh, CHANNELS], rfl, ?_⟩
  intro ch
  have hout : (scan_channels devices hub_location oracle (reconnect_clear st) ports).out ch
      = scan_one oracle ChanMap.empty ChanMap.empty ch
          ((channel_devices devices hub_location ports).get ch) := rfl
  rw [hout]
  cases hocc : (channel_devices devices hub_location ports).get ch with
  | none => simp [scan_one]
  | some x =>
    obtain ⟨sn, dev, p⟩ := x
    have h0 : some sn ≠ (ChanMap.empty : ChanMap String).get ch := by
      cases ch <;> simp [ChanMap.get, ChanMap.empty]
    simp [scan_one, h0]

/--
C4 counterexample: a reply line `"42"` parses as JSON (to the truthy
non-object value 42) and does not contain a status field, so the claim
requires the push to fail (return false); instead
`result.get("status")` raises an uncaught `AttributeError`, so
`_push_channel` neither succeeds nor fails — it propagates an error.
-/
theorem push_channel_nonobj_cex :
    push_ok (Reply.parsed (PyJson.num 42)) = Except.error () ∧
    (Except.error () : Except Unit Bool) ≠ Except.ok false ∧
    (Except.error () : Except Unit Bool) ≠ Except.ok true ∧
    hub_lost_flag (Reply.parsed (PyJson.num 42)) = false := by
  refine ⟨rfl, ?_, ?_, rfl⟩
  · intro h
    exact Except.noConfusion h
  · intro h
    exact Except.noConfusion h

/--
C4 (amended): a push succeeds (ok is true) iff the reply line parses as
a JSON object whose status field equals "ok"; a timeout (empty line), a
parse failure, an I/O error, a closed connection, a falsy parsed value,
and an object reply without status "ok" all yield failure; a truthy
non-object parsed reply instead raises an uncaught error.  `_hub_lost`
is set on an I/O (serial OSError) error and only then — never on a
parse failure or on a parsed reply with a non-ok status.
-/
theorem send_push_ok_spec :
    ∀ r : Reply,
      ((push_ok r = Except.ok true) ↔
        (∃ fields, r = Reply.parsed (PyJson.obj fields) ∧
          dictGet fields "status" = some (PyJson.str "ok"))) ∧
      ((hub_lost_flag r = true) ↔ r = Reply.ioErr) ∧
      ((push_ok r = Except.error ()) ↔
        (∃ v, r = Reply.parsed v ∧ truthyJson v = true ∧ isObjJson v = false)) := by
  intro r
  cases r with
  | closed => refine ⟨by simp [push_ok, send], by simp [hub_lost_flag, send], by simp [push_ok, send]⟩
  | ioErr => refine ⟨by simp [push_ok, send], by simp [hub_lost_flag, send], by simp [push_ok, send]⟩
  | timeout => refine ⟨by simp [push_ok, send], by simp [hub_lost_flag, send], by simp [push_ok, send]⟩
  | parseFail => refine ⟨by simp [push_ok, send], by simp [hub_lost_flag, send], by simp [push_ok, send]⟩
  | parsed v =>
    refine ⟨?_, by simp [hub_lost_flag, send], ?_⟩
    · cases v with
      | null => simp [push_ok, send, truthyJson]
      | bool b =>
        cases b <;> simp [push_ok, send, truthyJson]
      | num n =>
        by_cases hn : n = 0 <;> simp [push_ok, send, truthyJson, hn]
      | str s =>
        by_cases hs : s = "" <;> simp [push_ok, send, truthyJson, hs]
      | arr xs =>
        cases xs <;> simp [push_ok, send, truthyJson]
      | obj fields =>
        cases fields with
        | nil => simp [push_ok, send, truthyJson, dictGet]
        | cons kv rest =>
          simp only [push_ok, send, truthyJson, List.isEmpty_cons, Bool.not_false, if_true]
          constructor
          · intro h
            refine ⟨kv :: rest, rfl, ?_⟩
            cases hst : dictGet (kv :: rest) "status" with
            | none => rw [hst] at h; exact absurd (Except.ok.inj h) Bool.false_ne_true
            | some w =>
              cases w with
              | str s =>
                rw [hst] at h
                have : decide (s = "ok") = true := Except.ok.inj h
                have hs : s = "ok" := of_decide_eq_true this
                rw [hs]
              | null => rw [hst] at h; exact absurd (Except.ok.inj h) Bool.false_ne_true
              | bool b => rw [hst] at h; exact absurd (Except.ok.inj h) Bool.false_ne_true
              | num n => rw [hst] at h; exact absurd (Except.ok.inj h) Bool.false_ne_true
              | arr xs => rw [hst] at h; exact absurd (Except.ok.inj h) Bool.false_ne_true
              | obj fs => rw [hst] at h; exact absurd (Except.ok.inj h) Bool.false_ne_true
          · rintro ⟨fields', hf, hst⟩
            have hf' : fields' = kv :: rest := by
              have := (Reply.parsed.inj hf)
              exact (PyJson.obj.inj this).symm ▸ rfl
            subst hf'
            rw [hst]
            simp
    · cases v with
      | null => simp [push_ok, send, truthyJson, isObjJson]
      | bool b =>
        cases b <;> simp [push_ok, send, truthyJson, isObjJson]
      | num n =>
        by_cases hn : n = 0 <;> simp [push_ok, send, truthyJson, isObjJson, hn]
      | str s =>
        by_cases hs : s = "" <;> simp [push_ok, send, truthyJson, isObjJson, hs]
      | arr xs =>
        cases xs <;> simp [push_ok, send, truthyJson, isObjJson]
      | obj fields =>
        cases fields with
        | nil => simp [push_ok, send, truthyJson, isObjJson, dictGet]
        | cons kv rest =>
          simp only [push_ok, send, truthyJson, List.isEmpty_cons, Bool.not_false, if_true]
          constructor
          · intro h
            cases hst : dictGet (kv :: rest) "status" with
            | none => rw [hst] at h; exact Except.noConfusion h
            | some w => cases w <;> rw [hst] at h <;> exact Except.noConfusion h
          · rintro ⟨v', hv', htr, hobj⟩
            have hv : v' = PyJson.obj (kv :: rest) := (Reply.parsed.inj hv').symm
            subst hv
            exact absurd hobj (by simp [isObjJson])
